import Mathlib

/-!
Shallow embedding of `query-engine/core/src/schema/builders/query_schema_builder.rs`
(the schema-construction orchestrator of prisma-rs) and proofs of the
specification's claims about it.

The orchestrator itself is translated from the source.  Its collaborators
(the sub-builders, the naming helpers, the `field`/`object_type`/`append_opt`
utilities and the `QuerySchema` container) live outside the provided source
slice, so they are modelled from the specification at their interface
boundary; each such definition carries a `Modelled from the spec:` comment.
Rust `Arc` weak references are modelled as plain lookup handles (type names),
and strong-count semantics are made explicit where a claim is about them.
-/

namespace Prisma

/-- Modelled from the spec: a data-model Model descriptor at the interface the
orchestrator consumes: a unique name and the embedded flag.  (Uniqueness
metadata and the field list are consumed only through the sub-builders,
which are modelled separately.) -/
structure Model where
  name : String
  is_embedded : Bool
deriving DecidableEq, Repr

/-- Modelled from the spec: the Data Model provider, exposing an ordered
collection of Model descriptors (`internal_data_model.models()`). -/
structure InternalDataModel where
  models : List Model
deriving DecidableEq, Repr

/-- Modelled from the spec: the Capability Set, consumed read-only; the
orchestrator only stores and forwards it, so its content is an abstract
list of enabled feature names. -/
structure SupportedCapabilities where
  capabilities : List String
deriving DecidableEq, Repr

/-- Modelled from the spec: an Argument: a named, typed input slot on a
Field, referencing an input type by name. -/
structure Argument where
  name : String
  arg_type : String
deriving DecidableEq, Repr

/-- Modelled from the spec: an Output Type, a tagged variant over
scalar / object reference / list / optional, composed recursively.
An object reference is a non-owning handle into the eventual Object Type
collection, modelled as the referenced object type's name. -/
inductive OutputType where
  | scalar : String → OutputType
  | object : String → OutputType
  | list : OutputType → OutputType
  | opt : OutputType → OutputType
deriving DecidableEq, Repr

/-- Modelled from the spec: a Field: a named, typed slot carrying an ordered
list of Arguments and an output type reference. -/
structure Field where
  name : String
  arguments : List Argument
  field_type : OutputType
deriving DecidableEq, Repr

/-- Modelled from the spec: an Object Type: a named composite type holding an
ordered sequence of Fields. -/
structure ObjectType where
  name : String
  fields : List Field
deriving DecidableEq, Repr

/-- Modelled from the spec: an Input Object Type: a named composite type
holding accepted input slots. -/
structure InputObjectType where
  name : String
  fields : List Argument
deriving DecidableEq, Repr

/-- Modelled from the spec: the `field` utility constructor used by the
orchestrator to assemble schema fields. -/
def field (name : String) (arguments : List Argument) (field_type : OutputType) : Field :=
  ⟨name, arguments, field_type⟩

/-- Modelled from the spec: the `object_type` utility constructor. -/
def object_type (name : String) (fields : List Field) : ObjectType :=
  ⟨name, fields⟩

/-- Modelled from the spec: the `append_opt` utility: append the element to
the vector when present, do nothing when absent. -/
def append_opt {α : Type} (vec : List α) (o : Option α) : List α :=
  match o with
  | some x => vec ++ [x]
  | none => vec

/-- Modelled from the spec: the lower-camel-case naming helper (naming
conventions are external collaborators); lowercases the leading character. -/
def camel_case (s : String) : String :=
  match s.data with
  | [] => s
  | c :: cs => String.mk (c.toLower :: cs)

/-- Modelled from the spec: the pluralization naming helper; regular English
plural as exercised by the spec's scenarios (append "s"). -/
def pluralize (s : String) : String :=
  s ++ "s"

/-- Modelled from the spec: the Object-Type Builder at its interface boundary:
the "many records" argument set per model, the memoized model object type
(a non-owning handle, modelled by name), the shared batch-payload object
type handle, and the owning cache drained at collection time. -/
structure ObjectTypeBuilder where
  many_records_arguments : Model → List Argument
  map_model_object_type : Model → String
  batch_payload_object_type : String
  cache : List ObjectType

/-- Modelled from the spec: draining the Object-Type Builder's owning cache. -/
def ObjectTypeBuilder.into_strong_refs (b : ObjectTypeBuilder) : List ObjectType :=
  b.cache

/-- Modelled from the spec: the Input-Type Builder at its interface boundary:
only its owning cache is consumed by the orchestrator. -/
structure InputTypeBuilder where
  cache : List InputObjectType

/-- Modelled from the spec: draining the Input-Type Builder's owning cache. -/
def InputTypeBuilder.into_strong_refs (b : InputTypeBuilder) : List InputObjectType :=
  b.cache

/-- Modelled from the spec: the Filter-Type Builder at its interface boundary:
only its owning cache is consumed by the orchestrator. -/
structure FilterObjectTypeBuilder where
  cache : List InputObjectType

/-- Modelled from the spec: draining the Filter-Type Builder's owning cache. -/
def FilterObjectTypeBuilder.into_strong_refs (b : FilterObjectTypeBuilder) : List InputObjectType :=
  b.cache

/-- Modelled from the spec: the Argument Builder at its interface boundary.
The unique-selector argument may be absent ("no argument available"), and
the delete/update/upsert argument lists exist exactly when the
unique-selector argument can be built (the spec's "same precondition");
the data payload parts and the many-record argument lists are abstract. -/
structure ArgumentBuilder where
  where_unique : Model → Option Argument
  create_args : Model → Option (List Argument)
  update_data : Model → List Argument
  upsert_data : Model → List Argument
  update_many_args : Model → List Argument
  delete_many_args : Model → List Argument

/-- Modelled from the spec: `where_unique_argument`: the unique-selector
argument for a model, when one can be built. -/
def ArgumentBuilder.where_unique_argument (b : ArgumentBuilder) (m : Model) : Option Argument :=
  b.where_unique m

/-- Modelled from the spec: `create_arguments`: the create-input arguments,
absent when the model has no settable fields. -/
def ArgumentBuilder.create_arguments (b : ArgumentBuilder) (m : Model) : Option (List Argument) :=
  b.create_args m

/-- Modelled from the spec: `delete_arguments`: present exactly when a
unique-selector argument can be built. -/
def ArgumentBuilder.delete_arguments (b : ArgumentBuilder) (m : Model) : Option (List Argument) :=
  (b.where_unique m).map (fun a => [a])

/-- Modelled from the spec: `update_arguments`: present exactly when a
unique-selector argument can be built; carries the update data payload. -/
def ArgumentBuilder.update_arguments (b : ArgumentBuilder) (m : Model) : Option (List Argument) :=
  (b.where_unique m).map (fun a => a :: b.update_data m)

/-- Modelled from the spec: `upsert_arguments`: present exactly when a
unique-selector argument can be built; carries the create/update payloads. -/
def ArgumentBuilder.upsert_arguments (b : ArgumentBuilder) (m : Model) : Option (List Argument) :=
  (b.where_unique m).map (fun a => a :: b.upsert_data m)

/-- Modelled from the spec: `update_many_arguments`. -/
def ArgumentBuilder.update_many_arguments (b : ArgumentBuilder) (m : Model) : List Argument :=
  b.update_many_args m

/-- Modelled from the spec: `delete_many_arguments`. -/
def ArgumentBuilder.delete_many_arguments (b : ArgumentBuilder) (m : Model) : List Argument :=
  b.delete_many_args m

/-- Build mode for schema generation (source lines 5-14). -/
inductive BuildMode where
  | Legacy
  | Modern
deriving DecidableEq, Repr

/-- The query schema builder (source lines 19-27): build mode, data model,
capabilities, and the four sub-builders it owns. -/
structure QuerySchemaBuilder where
  mode : BuildMode
  internal_data_model : InternalDataModel
  capabilities : SupportedCapabilities
  object_type_builder : ObjectTypeBuilder
  input_type_builder : InputTypeBuilder
  argument_builder : ArgumentBuilder
  filter_object_type_builder : FilterObjectTypeBuilder

/-- Modelled from the spec: the external sub-builder constructors wired by
`QuerySchemaBuilder::new` (their bodies live outside this slice); the
weak back-references of the source are modelled as plain values. -/
structure Externals where
  mkFilterObjectTypeBuilder : SupportedCapabilities → FilterObjectTypeBuilder
  mkInputTypeBuilder : InternalDataModel → FilterObjectTypeBuilder → InputTypeBuilder
  mkObjectTypeBuilder : InternalDataModel → Bool → SupportedCapabilities → FilterObjectTypeBuilder → ObjectTypeBuilder
  mkArgumentBuilder : InternalDataModel → InputTypeBuilder → ObjectTypeBuilder → ArgumentBuilder

/-- `QuerySchemaBuilder::new` (source lines 30-63): constructs the filter
builder first, then the input builder (back-reference to filter), the
object builder (back-reference to filter), the argument builder
(back-references to input and object), and stores everything together
with the mode, the data model and the capabilities. -/
def QuerySchemaBuilder.new (ext : Externals) (internal_data_model : InternalDataModel)
    (capabilities : SupportedCapabilities) (mode : BuildMode) : QuerySchemaBuilder :=
  let filter_object_type_builder := ext.mkFilterObjectTypeBuilder capabilities
  let input_type_builder := ext.mkInputTypeBuilder internal_data_model filter_object_type_builder
  let object_type_builder :=
    ext.mkObjectTypeBuilder internal_data_model true capabilities filter_object_type_builder
  let argument_builder := ext.mkArgumentBuilder internal_data_model input_type_builder object_type_builder
  ⟨mode, internal_data_model, capabilities, object_type_builder, input_type_builder,
    argument_builder, filter_object_type_builder⟩

/-- `non_embedded_models` (source lines 137-145): the data model's models,
filtered to those whose embedded flag is false, in order. -/
def QuerySchemaBuilder.non_embedded_models (b : QuerySchemaBuilder) : List Model :=
  b.internal_data_model.models.filter (fun m => !m.is_embedded)

/-- `all_items_field` (source lines 148-158): the list query field for a
model: pluralized camel-cased name, many-records arguments, returning a
list of optional object references. -/
def QuerySchemaBuilder.all_items_field (b : QuerySchemaBuilder) (model : Model) : Field :=
  let args := b.object_type_builder.many_records_arguments model
  field (camel_case (pluralize model.name)) args
    (OutputType.list (OutputType.opt (OutputType.object
      (b.object_type_builder.map_model_object_type model))))

/-- `single_item_field` (source lines 161-174): the single query field for a
model, emitted only when a unique-selector argument exists: camel-cased
name, that single argument, returning an optional object reference. -/
def QuerySchemaBuilder.single_item_field (b : QuerySchemaBuilder) (model : Model) : Option Field :=
  (b.argument_builder.where_unique_argument model).map (fun arg =>
    field (camel_case model.name) [arg]
      (OutputType.opt (OutputType.object
        (b.object_type_builder.map_model_object_type model))))

/-- `create_item_field` (source lines 177-188): the create mutation field,
always emitted; when no create arguments exist the argument list is
empty; returns a non-optional object reference. -/
def QuerySchemaBuilder.create_item_field (b : QuerySchemaBuilder) (model : Model) : Field :=
  let args := (b.argument_builder.create_arguments model).getD []
  field ("create" ++ model.name) args
    (OutputType.object (b.object_type_builder.map_model_object_type model))

/-- `delete_item_field` (source lines 191-201): the delete mutation field,
emitted only when delete arguments exist; returns an optional object
reference. -/
def QuerySchemaBuilder.delete_item_field (b : QuerySchemaBuilder) (model : Model) : Option Field :=
  (b.argument_builder.delete_arguments model).map (fun args =>
    field ("delete" ++ model.name) args
      (OutputType.opt (OutputType.object
        (b.object_type_builder.map_model_object_type model))))

/-- `update_item_field` (source lines 204-214): the update mutation field,
emitted only when update arguments exist; returns an optional object
reference. -/
def QuerySchemaBuilder.update_item_field (b : QuerySchemaBuilder) (model : Model) : Option Field :=
  (b.argument_builder.update_arguments model).map (fun args =>
    field ("update" ++ model.name) args
      (OutputType.opt (OutputType.object
        (b.object_type_builder.map_model_object_type model))))

/-- `upsert_item_field` (source lines 217-225): the upsert mutation field,
emitted only when upsert arguments exist; returns a non-optional object
reference. -/
def QuerySchemaBuilder.upsert_item_field (b : QuerySchemaBuilder) (model : Model) : Option Field :=
  (b.argument_builder.upsert_arguments model).map (fun args =>
    field ("upsert" ++ model.name) args
      (OutputType.object (b.object_type_builder.map_model_object_type model)))

/-- `update_many_field` (source lines 228-236): the updateMany mutation
field; returns the shared batch-payload object type. -/
def QuerySchemaBuilder.update_many_field (b : QuerySchemaBuilder) (model : Model) : Field :=
  let arguments := b.argument_builder.update_many_arguments model
  field ("updateMany" ++ pluralize model.name) arguments
    (OutputType.object b.object_type_builder.batch_payload_object_type)

/-- `delete_many_field` (source lines 239-247): the deleteMany mutation
field; returns the shared batch-payload object type. -/
def QuerySchemaBuilder.delete_many_field (b : QuerySchemaBuilder) (model : Model) : Field :=
  let arguments := b.argument_builder.delete_many_arguments model
  field ("deleteMany" ++ pluralize model.name) arguments
    (OutputType.object b.object_type_builder.batch_payload_object_type)

/-- The per-model field contribution of `build_query_type`'s map closure
(source lines 98-103): the list field, then the single-item field when
present. -/
def QuerySchemaBuilder.query_fields_for (b : QuerySchemaBuilder) (m : Model) : List Field :=
  append_opt [b.all_items_field m] (b.single_item_field m)

/-- `build_query_type` (source lines 94-110): the root query object type,
one contribution per non-embedded model, flattened; the returned output
type is a non-owning reference to the "Query" object. -/
def QuerySchemaBuilder.build_query_type (b : QuerySchemaBuilder) : OutputType × ObjectType :=
  let fields := (b.non_embedded_models.map (fun m => b.query_fields_for m)).flatten
  let strong_ref := object_type "Query" fields
  (OutputType.object strong_ref.name, strong_ref)

/-- The per-model field contribution of `build_mutation_type`'s map closure
(source lines 117-127): create, then delete/update/upsert when present,
then updateMany and deleteMany. -/
def QuerySchemaBuilder.mutation_fields_for (b : QuerySchemaBuilder) (model : Model) : List Field :=
  let vec := [b.create_item_field model]
  let vec := append_opt vec (b.delete_item_field model)
  let vec := append_opt vec (b.update_item_field model)
  let vec := append_opt vec (b.upsert_item_field model)
  let vec := vec ++ [b.update_many_field model]
  let vec := vec ++ [b.delete_many_field model]
  vec

/-- `build_mutation_type` (source lines 113-135): the root mutation object
type, one contribution per non-embedded model, flattened. -/
def QuerySchemaBuilder.build_mutation_type (b : QuerySchemaBuilder) : OutputType × ObjectType :=
  let fields := (b.non_embedded_models.map (fun model => b.mutation_fields_for model)).flatten
  let strong_ref := object_type "Mutation" fields
  (OutputType.object strong_ref.name, strong_ref)

/-- `collect_types` (source lines 69-78) in the case where the unwraps
succeed: drain the three caches, merge the filter types into the input
types, and return (input list, output list). -/
def QuerySchemaBuilder.collect_types (b : QuerySchemaBuilder) :
    List InputObjectType × List ObjectType :=
  let output_objects := b.object_type_builder.into_strong_refs
  let input_objects := b.input_type_builder.into_strong_refs
  let filter_objects := b.filter_object_type_builder.into_strong_refs
  (input_objects ++ filter_objects, output_objects)

/-- `Arc::try_unwrap(..).unwrap()` made explicit: succeeds exactly when the
strong count is 1 (only the orchestrator owns the value); a failing
unwrap is a panic, modelled as `none`. -/
def Arc.try_unwrap {α : Type} (strong_count : Nat) (a : α) : Option α :=
  if strong_count = 1 then some a else none

/-- The strong reference counts of the three `Arc`-held sub-builders at
collection time. -/
structure ArcCounts where
  object_type_builder : Nat
  input_type_builder : Nat
  filter_object_type_builder : Nat
deriving DecidableEq, Repr

/-- `collect_types` (source lines 69-78) with the `Arc` strong counts made
explicit: each cache drain first requires exclusive ownership
(`Arc::try_unwrap`), and any failure aborts the whole collection
(`unwrap` panics, modelled as `none`). -/
def QuerySchemaBuilder.collect_types_rc (b : QuerySchemaBuilder) (counts : ArcCounts) :
    Option (List InputObjectType × List ObjectType) :=
  (Arc.try_unwrap counts.object_type_builder b.object_type_builder).bind (fun otb =>
    (Arc.try_unwrap counts.input_type_builder b.input_type_builder).bind (fun itb =>
      (Arc.try_unwrap counts.filter_object_type_builder b.filter_object_type_builder).bind
        (fun ftb =>
          some (itb.into_strong_refs ++ ftb.into_strong_refs, otb.into_strong_refs))))

/-- Modelled from the spec: the finalized immutable Query Schema:
{root query, root mutation, input list, output list}. -/
structure QuerySchema where
  query : OutputType
  mutation : OutputType
  input_types : List InputObjectType
  output_types : List ObjectType
deriving DecidableEq, Repr

/-- Modelled from the spec: `QuerySchema::new`, assembling the schema from
exactly those four parts. -/
def QuerySchema.new (query : OutputType) (mutation : OutputType)
    (input_types : List InputObjectType) (output_types : List ObjectType) : QuerySchema :=
  ⟨query, mutation, input_types, output_types⟩

/-- `build` (source lines 82-91): build the root query and mutation types,
collect the cached types, push the two roots onto the output list, and
assemble the schema. -/
def QuerySchemaBuilder.build (b : QuerySchemaBuilder) : QuerySchema :=
  let qt := b.build_query_type
  let mt := b.build_mutation_type
  let col := b.collect_types
  let output_objects := (col.2.concat qt.2).concat mt.2
  QuerySchema.new qt.1 mt.1 col.1 output_objects

/-! Concrete instances taken from the spec's scenarios, used to witness the
theorems below: a "User" model with a unique key, a "Tag" model without
one, and an embedded "Address" model. -/

def userModel : Model := ⟨"User", false⟩

def tagModel : Model := ⟨"Tag", false⟩

def addressModel : Model := ⟨"Address", true⟩

def sampleDataModel : InternalDataModel := ⟨[userModel, tagModel, addressModel]⟩

def userWhereArg : Argument := ⟨"where", "UserWhereUniqueInput"⟩

def sampleObjectTypeBuilder : ObjectTypeBuilder :=
  ⟨fun _ => [], fun m => m.name, "BatchPayload", []⟩

def sampleArgumentBuilder : ArgumentBuilder :=
  ⟨fun m => if m.name = "User" then some userWhereArg else none,
   fun m => if m.name = "User" then some [⟨"data", "UserCreateInput"⟩] else none,
   fun _ => [⟨"data", "UserUpdateInput"⟩],
   fun _ => [⟨"create", "UserCreateInput"⟩, ⟨"update", "UserUpdateInput"⟩],
   fun _ => [],
   fun _ => []⟩

def sampleBuilder : QuerySchemaBuilder :=
  ⟨BuildMode.Modern, sampleDataModel, ⟨[]⟩, sampleObjectTypeBuilder, ⟨[]⟩,
   sampleArgumentBuilder, ⟨[]⟩⟩

def sampleExternals : Externals :=
  ⟨fun _ => ⟨[]⟩,
   fun _ _ => ⟨[]⟩,
   fun _ _ _ _ => sampleObjectTypeBuilder,
   fun _ _ _ => sampleArgumentBuilder⟩

/-! Helper lemmas shared by the claim theorems. -/

theorem append_opt_eq_append_toList {α : Type} (vec : List α) (o : Option α) :
    append_opt vec o = vec ++ o.toList := by
  cases o <;> simp [append_opt]

theorem mem_flatten_map {α β : Type} {l : List α} {a : α} {x : β} (f : α → List β)
    (ha : a ∈ l) (hx : x ∈ f a) : x ∈ (l.map f).flatten :=
  List.mem_flatten.mpr ⟨f a, List.mem_map_of_mem f ha, hx⟩

theorem build_query_type_fields (b : QuerySchemaBuilder) :
    (b.build_query_type).2.fields = (b.non_embedded_models.map b.query_fields_for).flatten :=
  rfl

theorem build_mutation_type_fields (b : QuerySchemaBuilder) :
    (b.build_mutation_type).2.fields = (b.non_embedded_models.map b.mutation_fields_for).flatten :=
  rfl

theorem mutation_fields_for_eq (b : QuerySchemaBuilder) (m : Model) :
    b.mutation_fields_for m =
      [b.create_item_field m] ++ (b.delete_item_field m).toList
        ++ (b.update_item_field m).toList ++ (b.upsert_item_field m).toList
        ++ [b.update_many_field m] ++ [b.delete_many_field m] := by
  simp [QuerySchemaBuilder.mutation_fields_for, append_opt_eq_append_toList]

theorem mem_non_embedded_models {b : QuerySchemaBuilder} {m : Model}
    (hmem : m ∈ b.internal_data_model.models) (hne : m.is_embedded = false) :
    m ∈ b.non_embedded_models := by
  simp [QuerySchemaBuilder.non_embedded_models, List.mem_filter, hmem, hne]

/-- C1: for every non-embedded model with a viable unique-selector key, the
root query type built by `build` contains both the list field and the
single-item field for that model, and the root mutation type contains the
create, delete, update, upsert, updateMany and deleteMany fields for it. -/
theorem unique_model_root_fields_complete (b : QuerySchemaBuilder) (m : Model)
    (hmem : m ∈ b.internal_data_model.models) (hne : m.is_embedded = false)
    (huniq : (b.argument_builder.where_unique_argument m).isSome = true) :
    (b.all_items_field m ∈ (b.build_query_type).2.fields
      ∧ ∃ f, b.single_item_field m = some f ∧ f ∈ (b.build_query_type).2.fields)
    ∧ (b.create_item_field m ∈ (b.build_mutation_type).2.fields
      ∧ (∃ f, b.delete_item_field m = some f ∧ f ∈ (b.build_mutation_type).2.fields)
      ∧ (∃ f, b.update_item_field m = some f ∧ f ∈ (b.build_mutation_type).2.fields)
      ∧ (∃ f, b.upsert_item_field m = some f ∧ f ∈ (b.build_mutation_type).2.fields)
      ∧ b.update_many_field m ∈ (b.build_mutation_type).2.fields
      ∧ b.delete_many_field m ∈ (b.build_mutation_type).2.fields) := by
  obtain ⟨a, ha⟩ := Option.isSome_iff_exists.mp huniq
  have ha' : b.argument_builder.where_unique m = some a := ha
  have hm := mem_non_embedded_models hmem hne
  have hq : ∀ x ∈ b.query_fields_for m, x ∈ (b.build_query_type).2.fields := by
    intro x hx
    rw [build_query_type_fields]
    exact mem_flatten_map b.query_fields_for hm hx
  have hmu : ∀ x ∈ b.mutation_fields_for m, x ∈ (b.build_mutation_type).2.fields := by
    intro x hx
    rw [build_mutation_type_fields]
    exact mem_flatten_map b.mutation_fields_for hm hx
  have hs : b.single_item_field m = some (field (camel_case m.name) [a]
      (OutputType.opt (OutputType.object (b.object_type_builder.map_model_object_type m)))) := by
    simp [QuerySchemaBuilder.single_item_field, ArgumentBuilder.where_unique_argument, ha']
  have hd : b.delete_item_field m = some (field ("delete" ++ m.name) [a]
      (OutputType.opt (OutputType.object (b.object_type_builder.map_model_object_type m)))) := by
    simp [QuerySchemaBuilder.delete_item_field, ArgumentBuilder.delete_arguments, ha']
  have hu : b.update_item_field m = some (field ("update" ++ m.name)
      (a :: b.argument_builder.update_data m)
      (OutputType.opt (OutputType.object (b.object_type_builder.map_model_object_type m)))) := by
    simp [QuerySchemaBuilder.update_item_field, ArgumentBuilder.update_arguments, ha']
  have hup : b.upsert_item_field m = some (field ("upsert" ++ m.name)
      (a :: b.argument_builder.upsert_data m)
      (OutputType.object (b.object_type_builder.map_model_object_type m))) := by
    simp [QuerySchemaBuilder.upsert_item_field, ArgumentBuilder.upsert_arguments, ha']
  refine ⟨⟨hq _ ?_, ⟨_, hs, hq _ ?_⟩⟩,
    hmu _ ?_, ⟨_, hd, hmu _ ?_⟩, ⟨_, hu, hmu _ ?_⟩, ⟨_, hup, hmu _ ?_⟩, hmu _ ?_, hmu _ ?_⟩
  · simp [QuerySchemaBuilder.query_fields_for, append_opt_eq_append_toList]
  · simp [QuerySchemaBuilder.query_fields_for, append_opt_eq_append_toList, hs]
  · simp [mutation_fields_for_eq]
  · simp [mutation_fields_for_eq, hd]
  · simp [mutation_fields_for_eq, hu]
  · simp [mutation_fields_for_eq, hup]
  · simp [mutation_fields_for_eq]
  · simp [mutation_fields_for_eq]

/-- C1 witness: the "User" scenario model satisfies the hypotheses, and its
list and create fields are in the roots. -/
theorem unique_model_root_fields_complete_witness :
    sampleBuilder.all_items_field userModel ∈ (sampleBuilder.build_query_type).2.fields
    ∧ sampleBuilder.create_item_field userModel ∈ (sampleBuilder.build_mutation_type).2.fields := by
  have h := unique_model_root_fields_complete sampleBuilder userModel
    (by decide) (by decide) (by decide)
  exact ⟨h.1.1, h.2.1⟩

/-- C2: for every non-embedded model without a viable unique-selector key,
the model's contribution to the root query type is exactly the list field
(the single-item field is omitted), and its contribution to the root
mutation type is exactly the create, updateMany and deleteMany fields
(delete, update and upsert are omitted); the roots are the flattened
per-model contributions. -/
theorem non_unique_model_root_fields_restricted (b : QuerySchemaBuilder) (m : Model)
    (hmem : m ∈ b.internal_data_model.models) (hne : m.is_embedded = false)
    (hnone : b.argument_builder.where_unique_argument m = none) :
    b.query_fields_for m = [b.all_items_field m]
    ∧ b.single_item_field m = none
    ∧ b.mutation_fields_for m
        = [b.create_item_field m, b.update_many_field m, b.delete_many_field m]
    ∧ b.delete_item_field m = none
    ∧ b.update_item_field m = none
    ∧ b.upsert_item_field m = none
    ∧ (b.build_query_type).2.fields = (b.non_embedded_models.map b.query_fields_for).flatten
    ∧ (b.build_mutation_type).2.fields
        = (b.non_embedded_models.map b.mutation_fields_for).flatten
    ∧ m ∈ b.non_embedded_models := by
  have hn : b.argument_builder.where_unique m = none := hnone
  have hs : b.single_item_field m = none := by
    simp [QuerySchemaBuilder.single_item_field, ArgumentBuilder.where_unique_argument, hn]
  have hd : b.delete_item_field m = none := by
    simp [QuerySchemaBuilder.delete_item_field, ArgumentBuilder.delete_arguments, hn]
  have hu : b.update_item_field m = none := by
    simp [QuerySchemaBuilder.update_item_field, ArgumentBuilder.update_arguments, hn]
  have hup : b.upsert_item_field m = none := by
    simp [QuerySchemaBuilder.upsert_item_field, ArgumentBuilder.upsert_arguments, hn]
  refine ⟨?_, hs, ?_, hd, hu, hup, rfl, rfl, mem_non_embedded_models hmem hne⟩
  · simp [QuerySchemaBuilder.query_fields_for, append_opt_eq_append_toList, hs]
  · simp [mutation_fields_for_eq, hd, hu, hup]

/-- C2 witness: the "Tag" scenario model has no unique key; its query
contribution is the single list field and its mutation contribution is
create, updateMany, deleteMany. -/
theorem non_unique_model_root_fields_restricted_witness :
    sampleBuilder.query_fields_for tagModel = [sampleBuilder.all_items_field tagModel]
    ∧ sampleBuilder.mutation_fields_for tagModel
        = [sampleBuilder.create_item_field tagModel, sampleBuilder.update_many_field tagModel,
            sampleBuilder.delete_many_field tagModel]
    ∧ sampleBuilder.single_item_field tagModel = none := by
  have h := non_unique_model_root_fields_restricted sampleBuilder tagModel
    (by decide) (by decide) (by decide)
  exact ⟨h.1, h.2.2.1, h.2.1⟩

/-- C3: embedded models are excluded entirely: the models driving both root
types are exactly the data model's models with the embedded flag false,
in data-model order, and a model with the embedded flag true is never
among them. -/
theorem embedded_models_excluded (b : QuerySchemaBuilder) :
    b.non_embedded_models = b.internal_data_model.models.filter (fun m => !m.is_embedded)
    ∧ (b.build_query_type).2.fields
        = ((b.internal_data_model.models.filter (fun m => !m.is_embedded)).map
            b.query_fields_for).flatten
    ∧ (b.build_mutation_type).2.fields
        = ((b.internal_data_model.models.filter (fun m => !m.is_embedded)).map
            b.mutation_fields_for).flatten
    ∧ ∀ m : Model, m.is_embedded = true → m ∉ b.non_embedded_models := by
  refine ⟨rfl, rfl, rfl, ?_⟩
  intro m hm hcontra
  have := (List.mem_filter.mp hcontra).2
  simp [hm] at this

/-- C3 witness: the embedded "Address" scenario model is not among the
models the roots are assembled over. -/
theorem embedded_models_excluded_witness :
    addressModel ∉ sampleBuilder.non_embedded_models :=
  (embedded_models_excluded sampleBuilder).2.2.2 addressModel rfl

/-- C4: `build` assembles the schema exactly from the root query type, the
root mutation type, the input-type list (the Input-Type Builder's cache
with the Filter-Type Builder's cache appended) and the output-type list
(the Object-Type Builder's cache with the root query object and then the
root mutation object appended). -/
theorem build_assembles_schema (b : QuerySchemaBuilder) :
    b.build = QuerySchema.new (b.build_query_type).1 (b.build_mutation_type).1
      (b.input_type_builder.into_strong_refs ++ b.filter_object_type_builder.into_strong_refs)
      (b.object_type_builder.into_strong_refs
        ++ [(b.build_query_type).2, (b.build_mutation_type).2]) := by
  simp [QuerySchemaBuilder.build, QuerySchemaBuilder.collect_types, QuerySchema.new,
    List.concat_eq_append, List.append_assoc]

/-- C5: for every model with name N, the emitted field names are exactly
lower-camel-case(pluralize(N)) for the list field, lower-camel-case(N)
for the single-item field, "create"/"delete"/"update"/"upsert" + N for
the single-record mutation fields, and "updateMany"/"deleteMany" +
pluralize(N) for the batch mutation fields. -/
theorem field_names_follow_naming_rules (b : QuerySchemaBuilder) (m : Model) :
    (b.all_items_field m).name = camel_case (pluralize m.name)
    ∧ (∀ f, b.single_item_field m = some f → f.name = camel_case m.name)
    ∧ (b.create_item_field m).name = "create" ++ m.name
    ∧ (∀ f, b.delete_item_field m = some f → f.name = "delete" ++ m.name)
    ∧ (∀ f, b.update_item_field m = some f → f.name = "update" ++ m.name)
    ∧ (∀ f, b.upsert_item_field m = some f → f.name = "upsert" ++ m.name)
    ∧ (b.update_many_field m).name = "updateMany" ++ pluralize m.name
    ∧ (b.delete_many_field m).name = "deleteMany" ++ pluralize m.name := by
  refine ⟨rfl, ?_, rfl, ?_, ?_, ?_, rfl, rfl⟩ <;>
    · intro f hf
      cases hw : b.argument_builder.where_unique m with
      | none =>
        simp [QuerySchemaBuilder.single_item_field, QuerySchemaBuilder.delete_item_field,
          QuerySchemaBuilder.update_item_field, QuerySchemaBuilder.upsert_item_field,
          ArgumentBuilder.where_unique_argument, ArgumentBuilder.delete_arguments,
          ArgumentBuilder.update_arguments, ArgumentBuilder.upsert_arguments, hw] at hf
      | some a =>
        simp [QuerySchemaBuilder.single_item_field, QuerySchemaBuilder.delete_item_field,
          QuerySchemaBuilder.update_item_field, QuerySchemaBuilder.upsert_item_field,
          ArgumentBuilder.where_unique_argument, ArgumentBuilder.delete_arguments,
          ArgumentBuilder.update_arguments, ArgumentBuilder.upsert_arguments, hw] at hf
        simp [← hf, field]

/-- C5 witness: on the "User" scenario model the names compute to "users",
"user", "createUser", "updateManyUsers", "deleteManyUsers". -/
theorem field_names_follow_naming_rules_witness :
    (sampleBuilder.all_items_field userModel).name = "users"
    ∧ (sampleBuilder.create_item_field userModel).name = "createUser"
    ∧ (sampleBuilder.update_many_field userModel).name = "updateManyUsers"
    ∧ (sampleBuilder.delete_many_field userModel).name = "deleteManyUsers"
    ∧ (field "user" [userWhereArg] (OutputType.opt (OutputType.object "User"))).name = "user" := by
  have h := field_names_follow_naming_rules sampleBuilder userModel
  exact ⟨h.1, h.2.2.1, h.2.2.2.2.2.2.1, h.2.2.2.2.2.2.2,
    h.2.1 (field "user" [userWhereArg] (OutputType.opt (OutputType.object "User"))) (by decide)⟩

/-- C6: the return-type shapes of the emitted fields: the list field returns
a list of optional object references; single-item, delete and update
return an optional object reference; create and upsert return a
non-optional object reference; updateMany and deleteMany return the
non-optional shared batch-payload object type. -/
theorem field_return_type_shapes (b : QuerySchemaBuilder) (m : Model) :
    (b.all_items_field m).field_type
        = OutputType.list (OutputType.opt (OutputType.object
            (b.object_type_builder.map_model_object_type m)))
    ∧ (∀ f, b.single_item_field m = some f → f.field_type
        = OutputType.opt (OutputType.object (b.object_type_builder.map_model_object_type m)))
    ∧ (b.create_item_field m).field_type
        = OutputType.object (b.object_type_builder.map_model_object_type m)
    ∧ (∀ f, b.delete_item_field m = some f → f.field_type
        = OutputType.opt (OutputType.object (b.object_type_builder.map_model_object_type m)))
    ∧ (∀ f, b.update_item_field m = some f → f.field_type
        = OutputType.opt (OutputType.object (b.object_type_builder.map_model_object_type m)))
    ∧ (∀ f, b.upsert_item_field m = some f → f.field_type
        = OutputType.object (b.object_type_builder.map_model_object_type m))
    ∧ (b.update_many_field m).field_type
        = OutputType.object b.object_type_builder.batch_payload_object_type
    ∧ (b.delete_many_field m).field_type
        = OutputType.object b.object_type_builder.batch_payload_object_type := by
  refine ⟨rfl, ?_, rfl, ?_, ?_, ?_, rfl, rfl⟩ <;>
    · intro f hf
      cases hw : b.argument_builder.where_unique m with
      | none =>
        simp [QuerySchemaBuilder.single_item_field, QuerySchemaBuilder.delete_item_field,
          QuerySchemaBuilder.update_item_field, QuerySchemaBuilder.upsert_item_field,
          ArgumentBuilder.where_unique_argument, ArgumentBuilder.delete_arguments,
          ArgumentBuilder.update_arguments, ArgumentBuilder.upsert_arguments, hw] at hf
      | some a =>
        simp [QuerySchemaBuilder.single_item_field, QuerySchemaBuilder.delete_item_field,
          QuerySchemaBuilder.update_item_field, QuerySchemaBuilder.upsert_item_field,
          ArgumentBuilder.where_unique_argument, ArgumentBuilder.delete_arguments,
          ArgumentBuilder.update_arguments, ArgumentBuilder.upsert_arguments, hw] at hf
        simp [← hf, field]

/-- C6 witness: on the "User" scenario model the list field's type is a list
of optional "User" object references and the create field's type is a
non-optional "User" object reference. -/
theorem field_return_type_shapes_witness :
    (sampleBuilder.all_items_field userModel).field_type
        = OutputType.list (OutputType.opt (OutputType.object "User"))
    ∧ (sampleBuilder.create_item_field userModel).field_type = OutputType.object "User"
    ∧ (field "user" [userWhereArg] (OutputType.opt (OutputType.object "User"))).field_type
        = OutputType.opt (OutputType.object "User") := by
  have h := field_return_type_shapes sampleBuilder userModel
  exact ⟨h.1, h.2.2.1,
    h.2.1 (field "user" [userWhereArg] (OutputType.opt (OutputType.object "User"))) (by decide)⟩

/-- C7: expected absence never fails the build: when no unique-selector
argument exists, the single-item, delete, update and upsert fields are
simply omitted; when no create arguments exist, the create field is still
emitted with an empty argument list. -/
theorem absent_arguments_never_fail_build (b : QuerySchemaBuilder) (m : Model) :
    (b.argument_builder.where_unique_argument m = none →
      b.single_item_field m = none ∧ b.delete_item_field m = none
      ∧ b.update_item_field m = none ∧ b.upsert_item_field m = none)
    ∧ (b.argument_builder.create_arguments m = none →
      b.create_item_field m = field ("create" ++ m.name) []
        (OutputType.object (b.object_type_builder.map_model_object_type m))) := by
  constructor
  · intro hnone
    have hn : b.argument_builder.where_unique m = none := hnone
    refine ⟨?_, ?_, ?_, ?_⟩
    · simp [QuerySchemaBuilder.single_item_field, ArgumentBuilder.where_unique_argument, hn]
    · simp [QuerySchemaBuilder.delete_item_field, ArgumentBuilder.delete_arguments, hn]
    · simp [QuerySchemaBuilder.update_item_field, ArgumentBuilder.update_arguments, hn]
    · simp [QuerySchemaBuilder.upsert_item_field, ArgumentBuilder.upsert_arguments, hn]
  · intro hnone
    simp [QuerySchemaBuilder.create_item_field, hnone]

/-- C7 witness: the "Tag" scenario model has neither a unique-selector
argument nor create arguments; the optional fields are omitted and the
create field is emitted with an empty argument list. -/
theorem absent_arguments_never_fail_build_witness :
    sampleBuilder.single_item_field tagModel = none
    ∧ sampleBuilder.create_item_field tagModel
        = field "createTag" [] (OutputType.object "Tag") := by
  have h := absent_arguments_never_fail_build sampleBuilder tagModel
  exact ⟨(h.1 (by decide)).1, h.2 (by decide)⟩

/-- C8: collection with the `Arc` strong counts made explicit succeeds, and
equals the plain collection, exactly when the orchestrator holds the only
strong reference to each of the three cached sub-builders (all counts
are 1); with any outstanding strong reference besides the orchestrator's
the unwrap panics and no partial result is produced. -/
theorem collect_types_requires_exclusive_ownership (b : QuerySchemaBuilder)
    (counts : ArcCounts) :
    b.collect_types_rc counts =
      if counts.object_type_builder = 1 ∧ counts.input_type_builder = 1
          ∧ counts.filter_object_type_builder = 1
      then some b.collect_types else none := by
  by_cases h1 : counts.object_type_builder = 1 <;>
    by_cases h2 : counts.input_type_builder = 1 <;>
      by_cases h3 : counts.filter_object_type_builder = 1 <;>
        simp [QuerySchemaBuilder.collect_types_rc, QuerySchemaBuilder.collect_types,
          Arc.try_unwrap, h1, h2, h3]

/-- C9: schema construction is deterministic: two runs of `new` followed by
`build` on identical data models, capability sets and build modes produce
identical query schemas. -/
theorem build_deterministic (ext : Externals)
    (dm₁ dm₂ : InternalDataModel) (caps₁ caps₂ : SupportedCapabilities)
    (mode₁ mode₂ : BuildMode)
    (hdm : dm₁ = dm₂) (hcaps : caps₁ = caps₂) (hmode : mode₁ = mode₂) :
    (QuerySchemaBuilder.new ext dm₁ caps₁ mode₁).build
      = (QuerySchemaBuilder.new ext dm₂ caps₂ mode₂).build := by
  subst hdm
  subst hcaps
  subst hmode
  rfl

/-- C9 witness: two runs on the sample inputs agree. -/
theorem build_deterministic_witness :
    (QuerySchemaBuilder.new sampleExternals sampleDataModel ⟨[]⟩ BuildMode.Modern).build
      = (QuerySchemaBuilder.new sampleExternals sampleDataModel ⟨[]⟩ BuildMode.Modern).build :=
  build_deterministic sampleExternals sampleDataModel sampleDataModel ⟨[]⟩ ⟨[]⟩
    BuildMode.Modern BuildMode.Modern rfl rfl rfl

/-- C10: the schema is independent of the build mode: for every data model
and capability set, building with `BuildMode.Legacy` and with
`BuildMode.Modern` yields identical query schemas, because the stored
mode field is never consulted by `build`. -/
theorem build_independent_of_mode (ext : Externals) (dm : InternalDataModel)
    (caps : SupportedCapabilities) :
    (QuerySchemaBuilder.new ext dm caps BuildMode.Legacy).build
      = (QuerySchemaBuilder.new ext dm caps BuildMode.Modern).build :=
  rfl

end Prisma
